import Mathlib

/-!
Shallow embedding of the image-crawler pipeline (crawler.py, downloader.py,
image_downloader.py, link_fetcher.py) and proofs about its specification.

Python strings are Lean `String`s; the handful of Python string operations the
code uses (`split` on a single character, `strip`, `in`, `startswith`,
truthiness) are re-implemented structurally on the character list so that all
definitions evaluate inside the kernel.  `urljoin` from `urllib.parse` is an
external collaborator and is threaded through as an explicit function
parameter `uj`.  Network, rendering and filesystem effects are oracles:
a function from the attempt/page number to the outcome the outside world
produces, with `Except` distinguishing a Python exception from a return.
-/

/-- Equality on `Except` outcomes is decidable (needed so runs of the
embedding evaluate inside the kernel). -/
instance {ε α : Type} [DecidableEq ε] [DecidableEq α] : DecidableEq (Except ε α) := fun x y =>
  match x, y with
  | .ok a, .ok b =>
    if h : a = b then .isTrue (by rw [h])
    else .isFalse (fun hc => h (Except.ok.inj hc))
  | .ok _, .error _ => .isFalse (fun hc => Except.noConfusion hc)
  | .error _, .ok _ => .isFalse (fun hc => Except.noConfusion hc)
  | .error a, .error b =>
    if h : a = b then .isTrue (by rw [h])
    else .isFalse (fun hc => h (Except.error.inj hc))

/-! ### Python string primitives -/

/-- Characters treated as whitespace by Python `str.strip()` (the ones that
can occur in this program's data). -/
def pyWs (c : Char) : Bool := c = ' ' || c = '\t' || c = '\n' || c = '\r'

/-- Split a character list on a single separator character, Python style:
`splitCh c` of the empty list is `[[]]`, and every separator occurrence
produces a boundary, so `"a,b,".split(',') = ["a","b",""]`. -/
def splitCh (c : Char) : List Char → List (List Char)
  | [] => [[]]
  | x :: xs =>
    match splitCh c xs with
    | [] => [[]]
    | h :: t => if x = c then [] :: h :: t else (x :: h) :: t

/-- Python `s.split(c)` for a one-character separator `c`. -/
def pySplit (c : Char) (s : String) : List String := (splitCh c s.data).map String.mk

/-- Python `s.strip()`. -/
def pyStrip (s : String) : String :=
  String.mk (((s.data.dropWhile pyWs).reverse.dropWhile pyWs).reverse)

/-- `leadEq p l` holds when `p` is an initial run of `l`. -/
def leadEq : List Char → List Char → Bool
  | [], _ => true
  | _ :: _, [] => false
  | a :: as, b :: bs => a = b && leadEq as bs

/-- `hasSub p l`: the pattern `p` occurs contiguously somewhere in `l`. -/
def hasSub (pat : List Char) : List Char → Bool
  | [] => leadEq pat []
  | x :: xs => leadEq pat (x :: xs) || hasSub pat xs

/-- Python `pat in s` substring test. -/
def pyIn (pat s : String) : Bool := hasSub pat.data s.data

/-- Python `s.startswith(p)`. -/
def pyStarts (p s : String) : Bool := leadEq p.data s.data

/-- Python truthiness of an `Optional[str]`: `None` and `""` are falsy. -/
def truthy : Option String → Bool
  | none => false
  | some s => !s.data.isEmpty

/-- Python `x or y` on optional strings: `x` when truthy, otherwise `y`. -/
def pyOrS (x y : Option String) : Option String := if truthy x then x else y

/-! ### Parsed-HTML model (the BeautifulSoup calls the code makes)

The code only ever inspects `img` tags (their attribute dictionary and the
`href` of the nearest enclosing `a`) and `a` tags (attributes and text), so a
parsed page is modelled as those two lists in document order. -/

/-- A tag's attribute dictionary, in document order of first occurrence. -/
abbrev Attrs := List (String × String)

/-- BeautifulSoup `tag.get(k)`: the attribute value when the key is present. -/
def getAttr (a : Attrs) (k : String) : Option String :=
  (a.find? (fun p => p.1 == k)).map (fun p => p.2)

/-- Python `k in tag.attrs`: the attribute key is present (whatever its value). -/
def hasKey (a : Attrs) (k : String) : Bool := (a.find? (fun p => p.1 == k)).isSome

/-- An `img` element: its attributes and, when some enclosing `a` element
exists, that anchor's attributes (`img.find_parent('a')`). -/
structure ImgTag where
  attrs : Attrs
  parentA : Option Attrs
deriving DecidableEq

/-- An `a` element: attributes and its string content. -/
structure ATag where
  attrs : Attrs
  text : String
deriving DecidableEq

/-- A parsed page: the `img` elements and the `a` elements, in document order. -/
structure Page where
  imgs : List ImgTag
  anchors : List ATag
deriving DecidableEq

/-- BeautifulSoup `find('a', class_=cls)` membership test: the tag's `class`
attribute, split on spaces, contains the token `cls`. -/
def hasClassTok (a : Attrs) (cls : String) : Bool :=
  cls ∈ pySplit ' ' ((getAttr a "class").getD "")

/-! ### LinkExtractor (crawler.py lines 116-127 / image_downloader.py 194-205) -/

/-- The image-source attribute preference chain of crawler.py line 118:
`img.get('data-src') or img.get('src') or img.get('data-original') or
img.get('data-lazy-src') or img.get('data-lazy-load') or img.get('data-img')
or img.get('srcset') or img.get('data-image')`. -/
def imgSrcChain (im : ImgTag) : Option String :=
  pyOrS (getAttr im.attrs "data-src") (pyOrS (getAttr im.attrs "src")
    (pyOrS (getAttr im.attrs "data-original") (pyOrS (getAttr im.attrs "data-lazy-src")
      (pyOrS (getAttr im.attrs "data-lazy-load") (pyOrS (getAttr im.attrs "data-img")
        (pyOrS (getAttr im.attrs "srcset") (getAttr im.attrs "data-image")))))))

/-- crawler.py line 120, srcset branch:
`img_url.split(',')[-1].strip().split(' ')[0]` — last comma candidate,
stripped, first space-separated token. -/
def srcsetPick (v : String) : String :=
  ((pySplit ' ' (pyStrip ((pySplit ',' v).getLastD ""))).headD "")

/-- crawler.py lines 118-120: the processed image url for one `img` element —
the preference-chain value when truthy, run through `urljoin` of the srcset
split when the element carries a `srcset` attribute (the code keys this on
`'srcset' in img.attrs`, not on which attribute the chain selected). -/
def imgCandidate (uj : String → String → String) (url : String) (im : ImgTag) :
    Option String :=
  let raw := imgSrcChain im
  if truthy raw then
    some (if hasKey im.attrs "srcset" then uj url (srcsetPick (raw.getD "")) else raw.getD "")
  else none

/-- crawler.py lines 118-127: the detail-page url contributed by one `img`
element, when its processed source url contains both site markers and the
enclosing anchor carries a truthy `href`. -/
def imgDetail (uj : String → String → String) (url : String) (im : ImgTag) :
    Option String :=
  match imgCandidate uj url im with
  | none => none
  | some iu =>
    if pyIn "wallspic.com" iu && pyIn "previews" iu then
      match im.parentA with
      | some pa =>
        if truthy (getAttr pa "href") then some (uj url ((getAttr pa "href").getD ""))
        else none
      | none => none
    else none

/-- Insertion into the Python `set` model: a duplicate-free list in
first-insertion order. -/
def addNew (acc : List String) (u : String) : List String :=
  if u ∈ acc then acc else acc ++ [u]

/-- crawler.py lines 116-127: `detail_urls`, the per-page set of detail links
(the `set()` is created afresh for every page of the loop). -/
def extractDetailUrls (uj : String → String → String) (url : String) (pg : Page) :
    List String :=
  pg.imgs.foldl (fun acc im =>
    match imgDetail uj url im with
    | some d => addNew acc d
    | none => acc) []

/-- crawler.py line 139: `soup.find('a', attrs={'rel': 'next'}) or
soup.find('a', string=re.compile('下一页|Next'))`. -/
def findNextA (pg : Page) : Option ATag :=
  match pg.anchors.find? (fun a => getAttr a.attrs "rel" == some "next") with
  | some a => some a
  | none => pg.anchors.find? (fun a => pyIn "下一页" a.text || pyIn "Next" a.text)

/-! ### The retrying.retry wrapper (`stop_max_attempt_number=3, wait_fixed=2000`)

`op att` is the decorated body's outcome on attempt `att` (1-based): `.ok` when
the body returns normally, `.error` when it raises.  The wrapper retries only
raising attempts, sleeps a fixed wait between attempts, and after the last
allowed attempt lets the outcome (value or exception) propagate. -/

/-- `@retrying.retry(stop_max_attempt_number=3, wait_fixed=2000)`, unrolled
for its fixed configuration: attempt 1; when it raises, sleep 2000 ms and run
attempt 2; when that raises, sleep 2000 ms and run attempt 3, whose outcome —
value or exception — propagates.  Returns the final outcome, the number of
attempts actually performed, and the list of waits (in ms) slept between
consecutive attempts. -/
def retryCall (op : Nat → Except Unit α) : Except Unit α × Nat × List Nat :=
  match op 1 with
  | .ok a => (.ok a, 1, [])
  | .error _ =>
    match op 2 with
    | .ok a => (.ok a, 2, [2000])
    | .error _ => (op 3, 3, [2000, 2000])

/-! ### crawler.py crawl_images (lines 99-151)

`fetch k` is the outcome of the `fetch_page` call made for `page_num = k`
(`fetch_page`'s own retrying happens below that oracle): `.ok` a parsed page,
`.error` an exception escaping `fetch_page` after its retries. -/

/-- What one run of `crawl_images` did: the detail urls put on the queue by
the loop body in order, the number of `fetch_page` calls, and whether the
loop ended through the `except` branch. -/
structure CrawlOut where
  puts : List String
  fetched : Nat
  aborted : Bool
deriving DecidableEq

/-- crawler.py lines 109-145, the `while page_num <= max_pages` loop.  `k` is
`page_num` and `fuel` the remaining loop iterations (`fuel = maxPages` at
`k = 1` makes the fuel-0 case coincide with the guard `page_num > max_pages`).
Per iteration: fetch the page; extract the per-page detail set; an empty set
breaks; otherwise the set is enqueued, and a missing next-page anchor breaks;
an exception from `fetch_page` is caught by the surrounding `except`. -/
def crawlLoop (uj : String → String → String) (fetch : Nat → Except Unit Page)
    (url : String) (maxPages : Nat) : Nat → Nat → CrawlOut
  | _, 0 => ⟨[], 0, false⟩
  | k, fuel + 1 =>
    if k > maxPages then ⟨[], 0, false⟩
    else
      match fetch k with
      | .error _ => ⟨[], 1, true⟩
      | .ok pg =>
        let ds := extractDetailUrls uj url pg
        if ds.isEmpty then ⟨[], 1, false⟩
        else
          match findNextA pg with
          | none => ⟨ds, 1, false⟩
          | some _ =>
            let r := crawlLoop uj fetch url maxPages (k + 1) fuel
            ⟨ds ++ r.puts, r.fetched + 1, r.aborted⟩

namespace Crawler

/-- crawler.crawl_images: the exact sequence of `detail_queue.put` calls made
by one producer run — `some u` for each detail url enqueued by the loop and a
final `none` for the shutdown sentinel the `finally` block always enqueues
(lines 149-151) — together with the loop's summary. -/
def crawl_images (uj : String → String → String) (fetch : Nat → Except Unit Page)
    (url : String) (maxPages : Nat) : List (Option String) × CrawlOut :=
  let r := crawlLoop uj fetch url maxPages 1 maxPages
  (r.puts.map some ++ [none], r)

/-- crawler.fetch_page wrapped in its retry decorator (lines 44-97): the body
loads the page (allocating one WebDriver, always quit in the `finally`) and
re-raises any exception, so the wrapper sees `.error` exactly when the load
failed.  `load att` is the page-load outcome of attempt `att`. -/
def fetch_page (load : Nat → Except Unit String) : Except Unit String × Nat × List Nat :=
  retryCall load

/-- crawler.fetch_page rendering-session accounting for one body execution:
`create_driver()` at line 57 allocates one session and the `finally` at line 97
quits it on both the return path and the raise path.  Result: (outcome,
sessions allocated, sessions released). -/
def fetch_page_sessions (load : Except Unit String) :
    Except Unit String × Nat × Nat :=
  match load with
  | .ok html => (.ok html, 1, 1)
  | .error e => (.error e, 1, 1)

end Crawler

/-! ### downloader.py -/

namespace Downloader

/-- downloader.py line 32, first operand: `url.split('/')[-1].split('?')[0]`
— the url's last slash-separated segment, cut at the first `?`. -/
def lastSegNoQuery (url : String) : String :=
  (pySplit '?' ((pySplit '/' url).getLastD "")).headD ""

/-- downloader.py line 32: `url.split('/')[-1].split('?')[0] or
f"image_{hash(url)}.jpg"`.  `hashStr url` stands for the decimal rendering of
Python's `hash(url)`. -/
def download_file_name (hashStr : String → String) (url : String) : String :=
  if lastSegNoQuery url = "" then "image_" ++ hashStr url ++ ".jpg"
  else lastSegNoQuery url

/-- `os.path.join(save_dir, file_name)` for a directory path without a
trailing separator. -/
def pathJoin (dir name : String) : String := dir ++ "/" ++ name

/-- What one attempt of downloader.download_image's body did. -/
structure DlEffects where
  wrotePath : Option String
  result : Bool
deriving DecidableEq

/-- downloader.download_image body, one attempt (lines 29-46): on a successful
HTTP fetch the response is streamed to `save_dir/file_name` under the file
lock and the body returns `True`; any exception is caught and the body returns
`False`.  The body therefore never raises: as a retrying-wrapped operation its
outcome is always `.ok`. -/
def download_image_body (hashStr : String → String) (url saveDir : String)
    (netOk : Bool) : Except Unit DlEffects :=
  if netOk then .ok ⟨some (pathJoin saveDir (download_file_name hashStr url)), true⟩
  else .ok ⟨none, false⟩

/-- downloader.download_image with its retry decorator (line 16).  `netOk att`
says whether the HTTP fetch succeeds on attempt `att`. -/
def download_image (hashStr : String → String) (url saveDir : String)
    (netOk : Nat → Bool) : Except Unit DlEffects × Nat × List Nat :=
  retryCall (fun att => download_image_body hashStr url saveDir (netOk att))

/-- downloader.py lines 65-72 (also image_downloader.py lines 155-162): search
the parsed detail page for `<a class="wallpaper__download">`; when the first
such anchor carries a truthy `href`, resolve it against the detail url. -/
def resolveDownload (uj : String → String → String) (detailUrl : String)
    (pg : Page) : Option String :=
  match pg.anchors.find? (fun a => hasClassTok a.attrs "wallpaper__download") with
  | some btn =>
    if truthy (getAttr btn.attrs "href") then
      some (uj detailUrl ((getAttr btn.attrs "href").getD ""))
    else none
  | none => none

/-- downloader.fetch_detail_page body, one attempt (lines 59-77): a network
failure is caught and returns `None`; otherwise the parsed page is searched
for the download button.  The body never raises. -/
def fetch_detail_page_body (uj : String → String → String) (detailUrl : String)
    (net : Except Unit Page) : Except Unit (Option String) :=
  match net with
  | .error _ => .ok none
  | .ok pg => .ok (resolveDownload uj detailUrl pg)

/-- downloader.fetch_detail_page with its retry decorator (line 48).
`net att` is the outcome of the HTTP fetch + parse on attempt `att`. -/
def fetch_detail_page (uj : String → String → String) (detailUrl : String)
    (net : Nat → Except Unit Page) : Except Unit (Option String) × Nat × List Nat :=
  retryCall (fun att => fetch_detail_page_body uj detailUrl (net att))

/-- downloader.download_worker handling of one dequeued resolver result
(lines 93-95): the download actions it performs — none when the resolver
returned `None` (the item is skipped without error). -/
def workerHandle (actualUrl : Option String) : List String :=
  match actualUrl with
  | some u => [u]
  | none => []

end Downloader

/-! ### image_downloader.py and link_fetcher.py rendering-session accounting -/

namespace ImageDownloader

/-- image_downloader.fetch_page_with_driver with its retry decorator (lines
50-105): every attempt's body calls `create_driver()` (line 63) and quits that
driver in its `finally` (line 105); an attempt's exception propagates to the
wrapper.  `load att` is the page-load outcome of attempt `att`.  Returns the
final outcome and the number of attempts (= drivers allocated = released). -/
def fetch_page_with_driver (load : Nat → Except Unit Page) :
    Except Unit Page × Nat :=
  let r := retryCall load
  (r.1, r.2.1)

/-- image_downloader.fetch_detail_page (lines 139-168): allocates its own
driver at line 150, then calls `fetch_page_with_driver(detail_url, ...)` —
which allocates and releases one driver per attempt of its own — and finally
quits its own driver at line 167 on every exit path.  Network failure or a
missing download button yields `None`; the body never raises, so its outer
retry decorator never re-runs it.  Returns the resolver result and the
(allocated, released) rendering-session counts of the whole call. -/
def fetch_detail_page (uj : String → String → String) (detailUrl : String)
    (load : Nat → Except Unit Page) : Option String × Nat × Nat :=
  let inner := fetch_page_with_driver load
  let res :=
    match inner.1 with
    | .error _ => none
    | .ok pg => Downloader.resolveDownload uj detailUrl pg
  (res, inner.2 + 1, inner.2 + 1)

end ImageDownloader

namespace LinkFetcher

/-- link_fetcher.fetch_detail_page (lines 19-44): allocates one driver at line
24 and calls `driver.quit()` on each branch — the success return, the
no-button return, and the catch-all `except` — so one session is allocated
and one released whether the page load raises or returns.  `load` is the
outcome of `fetch_page_with_driver(driver, detail_url)` after its retries. -/
def fetch_detail_page (uj : String → String → String) (detailUrl : String)
    (load : Except Unit Page) : Option String × Nat × Nat :=
  match load with
  | .error _ => (none, 1, 1)
  | .ok pg => (Downloader.resolveDownload uj detailUrl pg, 1, 1)

end LinkFetcher

/-! ### The worker pool and the shutdown protocol

downloader.download_worker (lines 79-95) runs `while True: get; if None:
put(None); break; else resolve+download`.  The pool is modelled as a
transition system: the shared FIFO queue of `Option String` work items
(`none` is the shutdown sentinel) plus one record per worker.  A scheduler
step picks a worker; the step is possible only when that worker is still in
its loop and the queue is nonempty (`queue.get()` blocks on an empty queue).
Resolving and downloading do not touch the queue, so a url item is consumed
in the same step. -/

/-- One worker of the pool: whether it is still in its loop, and how many
times it has observed the shutdown sentinel. -/
structure WState where
  active : Bool
  obs : Nat
deriving DecidableEq

/-- The shared state: the FIFO queue and the worker pool. -/
structure Pool where
  queue : List (Option String)
  workers : List WState
deriving DecidableEq

/-- One iteration of downloader.download_worker's loop by worker `i`
(lines 87-95): dequeue the head item; on the sentinel, re-enqueue it once at
the back and leave the loop (lines 89-91); on a url, resolve and download it
and continue.  `none` when worker `i` cannot step (no such worker, worker
already exited, or empty queue — `queue.get()` blocks). -/
def workerStep (p : Pool) (i : Nat) : Option Pool :=
  match p.workers.get? i with
  | none => none
  | some w =>
    if w.active then
      match p.queue with
      | [] => none
      | item :: rest =>
        match item with
        | none => some ⟨rest ++ [none], p.workers.set i ⟨false, w.obs + 1⟩⟩
        | some _ => some ⟨rest, p.workers⟩
    else none

/-- Run a schedule: a list of worker indices, each of which must be able to
step when its turn comes. -/
def runSched (p : Pool) : List Nat → Option Pool
  | [] => some p
  | i :: s =>
    match workerStep p i with
    | some q => runSched q s
    | none => none

/-- No worker can take a step any more. -/
def terminalPool (p : Pool) : Bool :=
  (List.range p.workers.length).all (fun i => (workerStep p i).isNone)

/-- Total number of shutdown-sentinel observations across the pool. -/
def obsSum (p : Pool) : Nat := (p.workers.map WState.obs).sum

/-- downloader.start_downloaders (lines 97-114) + main: `n` workers, all in
their loop with no sentinel observed, sharing a queue preloaded with the
producer's put trace. -/
def startPool (items : List (Option String)) (n : Nat) : Pool :=
  ⟨items, List.replicate n ⟨true, 0⟩⟩

/-! ### downloader.main (lines 116-151) -/

namespace Downloader

/-- Effects of downloader.main after input validation, in program order. -/
inductive Eff where
  | mkdir
  | mkQueue
  | startWorker
  | startCrawler
deriving DecidableEq

/-- Outcome of downloader.main's setup phase. -/
inductive MainOutcome where
  | rejected
  | ran
deriving DecidableEq

/-- downloader.main (lines 116-140): after reading the four inputs, the url
must start with `http://` or `https://` (line 123); on rejection the function
returns at once — before the save directory is created (line 128-129), the
queue is constructed (line 132), the download threads are started (line 135)
and the crawler thread is started (lines 138-140). -/
def main (url : String) (maxWorkers : Nat) : MainOutcome × List Eff :=
  if !pyStarts "http://" url && !pyStarts "https://" url then (.rejected, [])
  else
    (.ran, [Eff.mkdir, Eff.mkQueue] ++ List.replicate maxWorkers Eff.startWorker
      ++ [Eff.startCrawler])

end Downloader

/-! ### Concrete fixtures used by counterexamples and witnesses -/

/-- A `urljoin` instantiation: the identity on the relative part (what the
real `urljoin` returns when every `href`/`src` in the fixture is already an
absolute url, as all fixtures below are). -/
def uj0 : String → String → String := fun _ r => r

/-- A fixture `img`: a wallspic preview image wrapped in an anchor to its
detail page. -/
def imgA : ImgTag :=
  ⟨[("src", "https://wallspic.com/previews/p1.jpg")],
   some [("href", "https://wallspic.com/d/1")]⟩

/-- Listing page 1: one preview image and a next-page anchor. -/
def pgA : Page := ⟨[imgA], [⟨[("rel", "next"), ("href", "/page2")], "Next"⟩]⟩

/-- Listing page 2: the same preview image, no next-page anchor. -/
def pgB : Page := ⟨[imgA], []⟩

/-- A two-page site whose pages both carry the same detail link. -/
def site2 : Nat → Except Unit Page := fun k => if k = 1 then .ok pgA else .ok pgB

/-- Listing page `k` of an endless site: one fresh detail link (distinct per
page) and always a next-page anchor. -/
def goodPage (k : Nat) : Page :=
  ⟨[⟨[("src", "https://wallspic.com/previews/p.jpg")],
     some [("href", "https://wallspic.com/d/" ++ String.mk (List.replicate k 'x'))]⟩],
   [⟨[("rel", "next")], "Next"⟩]⟩

/-- A site with a next page and new links on every page. -/
def site5 : Nat → Except Unit Page := fun k => .ok (goodPage k)

/-- An attempt oracle that fails on attempts 1 and 2 and succeeds from
attempt 3 on. -/
def failTwice : Nat → Bool := fun att => 3 ≤ att

/-- The failing-then-succeeding page-load oracle for crawler.fetch_page. -/
def load213 : Nat → Except Unit String := fun att => if 3 ≤ att then .ok "H" else .error ()

/-- A concrete stand-in for the rendering of `hash(url)`. -/
def hash0 : String → String := fun _ => "0"

/-- A fixture detail page carrying the download control with a destination. -/
def detailPg : Page :=
  ⟨[], [⟨[("class", "wallpaper__download btn"), ("href", "https://wallspic.com/img/full.jpg")], "Download"⟩]⟩

/-- A fixture detail page lacking the download-control marker. -/
def bare : Page := ⟨[], [⟨[("class", "other")], "x"⟩]⟩

/-- A fixture `img` whose only source attribute is a two-candidate `srcset`. -/
def imgSrcset : ImgTag := ⟨[("srcset", "a.jpg 1x, b.jpg 2x")], none⟩

/-! ### C10 -/

/-- C10: on every exit path of the producer's crawl loop — normal completion,
early break because no detail links or no next-page anchor were found, or an
exception escaping `fetch_page` — `crawl_images` enqueues the shutdown
sentinel exactly once, as the final queue put, because the `finally` block is
the only place that puts `None`.  The quantification over `fetch` ranges over
all of those exit paths at once. -/
theorem crawl_sentinel_once (uj : String → String → String)
    (fetch : Nat → Except Unit Page) (url : String) (maxPages : Nat) :
    ((Crawler.crawl_images uj fetch url maxPages).1.count none = 1)
    ∧ ((Crawler.crawl_images uj fetch url maxPages).1.getLast? = some none) := by
  constructor
  · show ((crawlLoop uj fetch url maxPages 1 maxPages).puts.map some ++ [none]).count none = 1
    rw [List.count_append]
    have h0 : ((crawlLoop uj fetch url maxPages 1 maxPages).puts.map some).count none = 0 := by
      rw [List.count_eq_zero]
      simp
    rw [h0]
    rfl
  · show ((crawlLoop uj fetch url maxPages 1 maxPages).puts.map some ++ [none]).getLast? = some none
    simp

/-! ### C9 -/

/-- C9: downloader.download_image derives the output filename from the url's
last slash-segment cut at the query string; when that segment is empty it
synthesizes `image_<hash(url)>.jpg`; and on a successful fetch the file is
written to the target directory under exactly that name. -/
theorem download_file_naming (hashStr : String → String) (url saveDir : String)
    (netOk : Nat → Bool) (h1 : netOk 1 = true) :
    (Downloader.download_image hashStr url saveDir netOk).1 =
      .ok ⟨some (saveDir ++ "/" ++ Downloader.download_file_name hashStr url), true⟩
    ∧ (Downloader.lastSegNoQuery url ≠ "" →
        Downloader.download_file_name hashStr url = Downloader.lastSegNoQuery url)
    ∧ (Downloader.lastSegNoQuery url = "" →
        Downloader.download_file_name hashStr url = "image_" ++ hashStr url ++ ".jpg") := by
  refine ⟨?_, ?_, ?_⟩
  · simp [Downloader.download_image, retryCall, Downloader.download_image_body, h1,
      Downloader.pathJoin]
  · intro h
    simp [Downloader.download_file_name, h]
  · intro h
    simp [Downloader.download_file_name, h]

/-- C9 witness: the theorem applied to a concrete url with a query string and
an all-success network oracle. -/
theorem download_file_naming_witness :
    (Downloader.download_image hash0 "https://a/b/c.jpg?w=1" "images" (fun _ => true)).1 =
      .ok ⟨some ("images" ++ "/" ++ Downloader.download_file_name hash0 "https://a/b/c.jpg?w=1"), true⟩
    ∧ (Downloader.lastSegNoQuery "https://a/b/c.jpg?w=1" ≠ "" →
        Downloader.download_file_name hash0 "https://a/b/c.jpg?w=1" =
          Downloader.lastSegNoQuery "https://a/b/c.jpg?w=1")
    ∧ (Downloader.lastSegNoQuery "https://a/b/c.jpg?w=1" = "" →
        Downloader.download_file_name hash0 "https://a/b/c.jpg?w=1" =
          "image_" ++ hash0 "https://a/b/c.jpg?w=1" ++ ".jpg") :=
  download_file_naming hash0 "https://a/b/c.jpg?w=1" "images" (fun _ => true) rfl

/-! ### C8 -/

/-- C8: a starting url that does not use an http/https scheme (it does not
start with `http://` or `https://`, the test at downloader.py line 123) is
rejected before any work begins: `main` returns the rejection outcome having
performed none of the session-creating effects — no directory creation, no
queue construction, no worker threads, no crawler thread. -/
theorem main_rejects_bad_scheme (url : String) (maxWorkers : Nat)
    (h1 : pyStarts "http://" url = false) (h2 : pyStarts "https://" url = false) :
    Downloader.main url maxWorkers = (.rejected, []) := by
  simp [Downloader.main, h1, h2]

/-- C8 witness: the theorem applied to an ftp url. -/
theorem main_rejects_bad_scheme_witness :
    Downloader.main "ftp://example.com" 5 = (.rejected, []) :=
  main_rejects_bad_scheme "ftp://example.com" 5 (by decide) (by decide)

/-! ### C5 -/

/-- A present attribute key makes `hasKey` true. -/
theorem hasKey_of_getAttr {a : Attrs} {k v : String} (h : getAttr a k = some v) :
    hasKey a k = true := by
  unfold getAttr at h
  unfold hasKey
  cases hf : a.find? (fun p => p.1 == k) with
  | none => rw [hf] at h; simp at h
  | some p => simp [hf]

/-- C5: when the selected source attribute of an `img` element is the `srcset`
attribute (every earlier attribute of the preference chain is missing or
empty and `srcset` is present and truthy), the candidate url is derived by
splitting the value on commas, taking the last candidate, stripping it, and
taking its first space-separated token, resolved against the base url; in
particular `"a.jpg 1x, b.jpg 2x"` yields `b.jpg`, not `a.jpg`. -/
theorem srcset_last_candidate (uj : String → String → String) (url : String)
    (im : ImgTag) (v : String)
    (h1 : truthy (getAttr im.attrs "data-src") = false)
    (h2 : truthy (getAttr im.attrs "src") = false)
    (h3 : truthy (getAttr im.attrs "data-original") = false)
    (h4 : truthy (getAttr im.attrs "data-lazy-src") = false)
    (h5 : truthy (getAttr im.attrs "data-lazy-load") = false)
    (h6 : truthy (getAttr im.attrs "data-img") = false)
    (h7 : getAttr im.attrs "srcset" = some v)
    (h8 : truthy (some v) = true) :
    imgCandidate uj url im = some (uj url (srcsetPick v))
    ∧ srcsetPick "a.jpg 1x, b.jpg 2x" = "b.jpg"
    ∧ "b.jpg" ≠ "a.jpg" := by
  have hchain : imgSrcChain im = some v := by
    unfold imgSrcChain
    rw [pyOrS, h1, pyOrS, h2, pyOrS, h3, pyOrS, h4, pyOrS, h5, pyOrS, h6, pyOrS, h7, h8]
    simp
  have hk : hasKey im.attrs "srcset" = true := hasKey_of_getAttr h7
  refine ⟨?_, by decide, by decide⟩
  unfold imgCandidate
  rw [hchain]
  simp only [h8, if_true, hk, Option.getD_some]

/-- C5 witness: the theorem applied to a concrete `img` carrying only the
fixture `srcset` value. -/
theorem srcset_last_candidate_witness :
    imgCandidate uj0 "https://wallspic.com/cn" imgSrcset =
      some (uj0 "https://wallspic.com/cn" (srcsetPick "a.jpg 1x, b.jpg 2x"))
    ∧ srcsetPick "a.jpg 1x, b.jpg 2x" = "b.jpg"
    ∧ "b.jpg" ≠ "a.jpg" :=
  srcset_last_candidate uj0 "https://wallspic.com/cn" imgSrcset "a.jpg 1x, b.jpg 2x"
    (by decide) (by decide) (by decide) (by decide) (by decide) (by decide)
    (by decide) (by decide)

/-! ### C4 -/

/-- C4: a detail page with no anchor that both carries the fixed download
class and a truthy `href` resolves to `None` (notFound, not an error); a page
whose download control carries a destination resolves to that destination
joined against the detail url; the `None` outcome is never retried (the
decorated body never raises, so the wrapper always performs exactly one
attempt); and the worker records a `None` result as a skipped item — it
performs no download action and continues without error. -/
theorem detail_resolver_notfound (uj : String → String → String) (durl : String)
    (pg : Page) (net : Nat → Except Unit Page) :
    ((∀ a ∈ pg.anchors, ¬(hasClassTok a.attrs "wallpaper__download" = true ∧
        truthy (getAttr a.attrs "href") = true)) →
      Downloader.resolveDownload uj durl pg = none)
    ∧ (∀ btn h, pg.anchors.find? (fun a => hasClassTok a.attrs "wallpaper__download") = some btn →
        getAttr btn.attrs "href" = some h → truthy (some h) = true →
        Downloader.resolveDownload uj durl pg = some (uj durl h))
    ∧ (Downloader.fetch_detail_page uj durl net).2.1 = 1
    ∧ Downloader.workerHandle none = [] := by
  refine ⟨?_, ?_, ?_, rfl⟩
  · intro habs
    unfold Downloader.resolveDownload
    cases hf : pg.anchors.find? (fun a => hasClassTok a.attrs "wallpaper__download") with
    | none => simp
    | some btn =>
      have hmem : btn ∈ pg.anchors := List.mem_of_find?_eq_some hf
      have hcls : hasClassTok btn.attrs "wallpaper__download" = true := by
        simpa using List.find?_some hf
      have hhref : truthy (getAttr btn.attrs "href") = false := by
        cases hh : truthy (getAttr btn.attrs "href") with
        | false => rfl
        | true => exact absurd ⟨hcls, hh⟩ (habs btn hmem)
      simp [hhref]
  · intro btn h hf hh ht
    simp [Downloader.resolveDownload, hf, hh, ht]
  · show (retryCall fun att => Downloader.fetch_detail_page_body uj durl (net att)).2.1 = 1
    unfold retryCall
    cases hnet : net 1 with
    | error e => simp [Downloader.fetch_detail_page_body, hnet]
    | ok p => simp [Downloader.fetch_detail_page_body, hnet]

/-- C4 witness: the theorem applied to the fixture pages — the page without
the marker resolves to `None` in one attempt, and the page with the control
resolves to its destination. -/
theorem detail_resolver_notfound_witness :
    (Downloader.resolveDownload uj0 "https://wallspic.com/d/1" bare = none)
    ∧ (Downloader.resolveDownload uj0 "https://wallspic.com/d/1" detailPg =
        some (uj0 "https://wallspic.com/d/1" "https://wallspic.com/img/full.jpg"))
    ∧ (Downloader.fetch_detail_page uj0 "https://wallspic.com/d/1" (fun _ => .ok bare)).2.1 = 1 :=
  ⟨(detail_resolver_notfound uj0 "https://wallspic.com/d/1" bare (fun _ => .ok bare)).1
      (by decide),
   (detail_resolver_notfound uj0 "https://wallspic.com/d/1" detailPg (fun _ => .ok bare)).2.1
      ⟨[("class", "wallpaper__download btn"), ("href", "https://wallspic.com/img/full.jpg")],
        "Download"⟩
      "https://wallspic.com/img/full.jpg" (by decide) (by decide) (by decide),
   (detail_resolver_notfound uj0 "https://wallspic.com/d/1" bare (fun _ => .ok bare)).2.2.1⟩

/-! ### C6 -/

/-- The crawl loop performs at most `fuel` iterations, each fetching at most
one page. -/
theorem crawlLoop_fetched_le (uj : String → String → String)
    (fetch : Nat → Except Unit Page) (url : String) (maxPages : Nat) :
    ∀ fuel k, (crawlLoop uj fetch url maxPages k fuel).fetched ≤ fuel := by
  intro fuel
  induction fuel with
  | zero => intro k; simp [crawlLoop]
  | succ m ih =>
    intro k
    unfold crawlLoop
    by_cases hk : k > maxPages
    · simp [hk]
    · simp only [hk, if_false]
      cases fetch k with
      | error e => simp
      | ok pg =>
        by_cases hds : (extractDetailUrls uj url pg).isEmpty
        · simp [hds]
        · simp only [hds, if_false]
          cases findNextA pg with
          | none => simp
          | some a =>
            simp only
            exact Nat.succ_le_succ (ih (k + 1))

/-- C6: the pagination loop fetches at most `B` listing pages for page budget
`B`, for every site and every base url; and on the fixture site that offers a
fresh detail link and a next-page anchor on each of its (more than five)
pages, budget 2 fetches exactly 2 pages and ends without taking the exception
branch. -/
theorem page_budget (uj : String → String → String) (fetch : Nat → Except Unit Page)
    (url : String) (B : Nat) :
    (Crawler.crawl_images uj fetch url B).2.fetched ≤ B
    ∧ ((Crawler.crawl_images uj0 site5 "https://wallspic.com/cn" 2).2.fetched = 2
       ∧ (Crawler.crawl_images uj0 site5 "https://wallspic.com/cn" 2).2.aborted = false) := by
  refine ⟨?_, by decide, by decide⟩
  show (crawlLoop uj fetch url B 1 B).fetched ≤ B
  exact crawlLoop_fetched_le uj fetch url B B 1

/-! ### C2 -/

/-- C2 counterexample: the claim fails for the ImageWriter operation.  With an
HTTP oracle that fails on attempts 1 and 2 and would succeed on attempt 3,
`download_image` — whose decorated body catches every exception and returns
`False` (downloader.py lines 42-44) — performs exactly one attempt and
returns `False`: the wrapper never sees a failure to retry, so it does not
return the successful result after 3 attempts. -/
theorem retry_swallowed_counterexample :
    Downloader.download_image hash0 "https://x/i.jpg" "images" failTwice =
      (.ok ⟨none, false⟩, 1, [])
    ∧ ¬((Downloader.download_image hash0 "https://x/i.jpg" "images" failTwice).2.1 = 3
        ∧ (Downloader.download_image hash0 "https://x/i.jpg" "images" failTwice).1 =
            .ok ⟨some (Downloader.pathJoin "images"
              (Downloader.download_file_name hash0 "https://x/i.jpg")), true⟩) := by
  decide

/-- C2 amended: the retrying wrapper performs at most 3 attempts with a fixed
2000 ms wait between consecutive attempts, and it retries only when the
decorated body raises.  crawler.fetch_page re-raises failures, so a load that
fails on attempts 1 and 2 and succeeds on attempt 3 returns the success after
exactly 3 attempts, and three failing attempts propagate the error to the
caller.  downloader.download_image and downloader.fetch_detail_page catch
every exception inside the decorated body and return `False`/`None` instead,
so a failing attempt is never retried: exactly one attempt is made and the
failure value is returned. -/
theorem retry_policy_amended :
    (∀ (α : Type) (op : Nat → Except Unit α),
      (retryCall op).2.1 ≤ 3
      ∧ (retryCall op).2.2 = List.replicate ((retryCall op).2.1 - 1) 2000)
    ∧ (∀ load : Nat → Except Unit String, load 1 = .error () → load 2 = .error () →
        (∀ h, load 3 = .ok h → Crawler.fetch_page load = (.ok h, 3, [2000, 2000]))
        ∧ (load 3 = .error () → Crawler.fetch_page load = (.error (), 3, [2000, 2000])))
    ∧ (∀ (hashStr : String → String) (url saveDir : String) (netOk : Nat → Bool),
        netOk 1 = false →
        Downloader.download_image hashStr url saveDir netOk = (.ok ⟨none, false⟩, 1, []))
    ∧ (∀ (uj : String → String → String) (durl : String) (net : Nat → Except Unit Page),
        (Downloader.fetch_detail_page uj durl net).2.1 = 1) := by
  refine ⟨?_, ?_, ?_, ?_⟩
  · intro α op
    unfold retryCall
    cases op 1 with
    | ok a => simp
    | error e =>
      cases op 2 with
      | ok a => simp
      | error e2 => simp
  · intro load h1 h2
    constructor
    · intro h h3
      unfold Crawler.fetch_page retryCall
      rw [h1, h2, h3]
    · intro h3
      unfold Crawler.fetch_page retryCall
      rw [h1, h2, h3]
  · intro hashStr url saveDir netOk h1
    unfold Downloader.download_image retryCall
    simp [Downloader.download_image_body, h1]
  · intro uj durl net
    show (retryCall fun att => Downloader.fetch_detail_page_body uj durl (net att)).2.1 = 1
    unfold retryCall
    cases hnet : net 1 with
    | error e => simp [Downloader.fetch_detail_page_body, hnet]
    | ok p => simp [Downloader.fetch_detail_page_body, hnet]

/-- C2 amended witness: the amended theorem applied to the fail-fail-succeed
load oracle, the all-failing load oracle, and a first-attempt-failing HTTP
oracle. -/
theorem retry_policy_amended_witness :
    Crawler.fetch_page load213 = (.ok "H", 3, [2000, 2000])
    ∧ Crawler.fetch_page (fun _ => .error ()) = (.error (), 3, [2000, 2000])
    ∧ Downloader.download_image hash0 "https://x/i.jpg" "images" (fun _ => false) =
        (.ok ⟨none, false⟩, 1, [])
    ∧ (Downloader.fetch_detail_page uj0 "https://wallspic.com/d/1" (fun _ => .ok bare)).2.1 = 1 :=
  ⟨(retry_policy_amended.2.1 load213 (by decide) (by decide)).1 "H" (by decide),
   (retry_policy_amended.2.1 (fun _ => .error ()) rfl rfl).2 rfl,
   retry_policy_amended.2.2.1 hash0 "https://x/i.jpg" "images" (fun _ => false) rfl,
   retry_policy_amended.2.2.2 uj0 "https://wallspic.com/d/1" (fun _ => .ok bare)⟩

/-! ### C7 -/

/-- C7 counterexample: image_downloader.fetch_detail_page allocates two
rendering sessions for one call, not exactly one — its own driver at line 150
plus the driver that `fetch_page_with_driver` creates for its attempt — even
when the inner page load succeeds immediately. -/
theorem session_count_counterexample :
    ImageDownloader.fetch_detail_page uj0 "https://wallspic.com/d/1" (fun _ => .ok bare) =
      (none, 2, 2)
    ∧ (ImageDownloader.fetch_detail_page uj0 "https://wallspic.com/d/1"
        (fun _ => .ok bare)).2.1 ≠ 1 := by
  decide

/-- Every retrying wrapper performs at least one attempt. -/
theorem retryCall_attempts_pos (op : Nat → Except Unit α) : 1 ≤ (retryCall op).2.1 := by
  unfold retryCall
  cases op 1 with
  | ok a => simp
  | error e =>
    cases op 2 with
    | ok a => simp
    | error e2 => simp

/-- C7 amended: every rendering session that is allocated is released on
every exit path, including the exception paths; crawler.fetch_page and
link_fetcher.fetch_detail_page allocate exactly one session per call, but
image_downloader.fetch_detail_page allocates one session directly plus one
per attempt of its inner page load — at least two per call — so the
"exactly one rendering-session resource" part holds for the Fetcher page load
and the driver-reusing resolver, and fails for the script-executing detail
resolution of image_downloader.py. -/
theorem session_accounting_amended :
    (∀ load : Except Unit String, (Crawler.fetch_page_sessions load).2 = (1, 1))
    ∧ (∀ (uj : String → String → String) (durl : String) (load : Except Unit Page),
        (LinkFetcher.fetch_detail_page uj durl load).2 = (1, 1))
    ∧ (∀ (uj : String → String → String) (durl : String) (load : Nat → Except Unit Page),
        (ImageDownloader.fetch_detail_page uj durl load).2.1 =
          (ImageDownloader.fetch_detail_page uj durl load).2.2
        ∧ 2 ≤ (ImageDownloader.fetch_detail_page uj durl load).2.1) := by
  refine ⟨?_, ?_, ?_⟩
  · intro load
    cases load with
    | ok h => rfl
    | error e => rfl
  · intro uj durl load
    cases load with
    | ok pg => rfl
    | error e => rfl
  · intro uj durl load
    constructor
    · rfl
    · show 2 ≤ (ImageDownloader.fetch_page_with_driver load).2 + 1
      have h1 : 1 ≤ (ImageDownloader.fetch_page_with_driver load).2 :=
        retryCall_attempts_pos load
      omega

/-- C7 amended witness: the amended theorem applied to concrete load oracles,
one per exit path of crawler.fetch_page. -/
theorem session_accounting_amended_witness :
    (Crawler.fetch_page_sessions (.ok "H")).2 = (1, 1)
    ∧ (Crawler.fetch_page_sessions (.error ())).2 = (1, 1)
    ∧ (LinkFetcher.fetch_detail_page uj0 "https://wallspic.com/d/1" (.error ())).2 = (1, 1)
    ∧ 2 ≤ (ImageDownloader.fetch_detail_page uj0 "https://wallspic.com/d/1"
        (fun _ => .error ())).2.1 :=
  ⟨session_accounting_amended.1 (.ok "H"),
   session_accounting_amended.1 (.error ()),
   session_accounting_amended.2.1 uj0 "https://wallspic.com/d/1" (.error ()),
   (session_accounting_amended.2.2 uj0 "https://wallspic.com/d/1" (fun _ => .error ())).2⟩

/-! ### C3 -/

/-- C3 counterexample: `detail_urls = set()` is created afresh inside the page
loop (crawler.py line 116), so the dedup is per page, not per session — the
same detail url discovered on two different listing pages is enqueued twice
within one crawl session. -/
theorem session_dedup_counterexample :
    (Crawler.crawl_images uj0 site2 "https://wallspic.com/cn" 5).1 =
      [some "https://wallspic.com/d/1", some "https://wallspic.com/d/1", none]
    ∧ (Crawler.crawl_images uj0 site2 "https://wallspic.com/cn" 5).1.count
        (some "https://wallspic.com/d/1") = 2 := by
  decide

/-- `addNew` keeps the accumulated list duplicate-free. -/
theorem addNew_nodup {acc : List String} (h : acc.Nodup) (u : String) :
    (addNew acc u).Nodup := by
  unfold addNew
  by_cases hm : u ∈ acc
  · simp [hm, h]
  · simp [hm, List.nodup_append, h]

/-- C3 amended: deduplication happens per listing page only — within a single
page load each discovered detail url is enqueued at most once (the per-page
`set` is duplicate-free), but the set does not survive to the next page, so a
url discovered on two different listing pages is enqueued once per page. -/
theorem per_page_dedup (uj : String → String → String) (url : String) (pg : Page) :
    (extractDetailUrls uj url pg).Nodup := by
  unfold extractDetailUrls
  have h : ∀ (ims : List ImgTag) (acc : List String), acc.Nodup →
      (ims.foldl (fun acc im =>
        match imgDetail uj url im with
        | some d => addNew acc d
        | none => acc) acc).Nodup := by
    intro ims
    induction ims with
    | nil => intro acc hacc; exact hacc
    | cons im rest ih =>
      intro acc hacc
      simp only [List.foldl_cons]
      cases imgDetail uj url im with
      | none => exact ih acc hacc
      | some d => exact ih (addNew acc d) (addNew_nodup hacc d)
  exact h pg.imgs [] List.nodup_nil

/-! ### C1 -/

/-- Number of url work items still in the queue. -/
def countQ (q : List (Option String)) : Nat := q.countP (fun x => x.isSome)

/-- Number of workers still in their loop. -/
def countActive (ws : List WState) : Nat := ws.countP (fun w => w.active)

/-- Strictly decreasing measure of a pool state: remaining url items plus
workers still running. -/
def measureP (p : Pool) : Nat := countQ p.queue + countActive p.workers

/-- Reachability invariant of the pool: the queue is url items followed by
the single sentinel; while a url item remains no worker has exited; and each
worker has either not yet observed the sentinel (in its loop, 0 observations)
or has observed it exactly once and exited. -/
def PoolInv (n : Nat) (p : Pool) : Prop :=
  p.workers.length = n ∧
  (∃ l, p.queue = l ++ [none] ∧ (∀ x ∈ l, x ≠ none) ∧
    (l ≠ [] → ∀ w ∈ p.workers, w.active = true)) ∧
  (∀ w ∈ p.workers, (w.active = true ∧ w.obs = 0) ∨ (w.active = false ∧ w.obs = 1))

/-- Anatomy of a successful scheduler step: the chosen worker exists and is
active, and it either consumed the sentinel (re-enqueueing it and exiting) or
consumed a url item. -/
theorem workerStep_shape {p : Pool} {i : Nat} {q : Pool}
    (h : workerStep p i = some q) :
    ∃ w, p.workers.get? i = some w ∧ w.active = true ∧
      ((∃ rest, p.queue = none :: rest ∧
          q = ⟨rest ++ [none], p.workers.set i ⟨false, w.obs + 1⟩⟩) ∨
       (∃ u rest, p.queue = some u :: rest ∧ q = ⟨rest, p.workers⟩)) := by
  unfold workerStep at h
  cases hw : p.workers.get? i with
  | none => rw [hw] at h; exact absurd h (by simp)
  | some w =>
    rw [hw] at h
    by_cases ha : w.active = true
    · refine ⟨w, rfl, ha, ?_⟩
      simp only [ha, if_true] at h
      cases hq : p.queue with
      | nil => rw [hq] at h; exact absurd h (by simp)
      | cons item rest =>
        rw [hq] at h
        cases item with
        | none => exact Or.inl ⟨rest, rfl, (Option.some.inj h).symm⟩
        | some u => exact Or.inr ⟨u, rest, rfl, (Option.some.inj h).symm⟩
    · simp [ha] at h

/-- The pool invariant is preserved by every scheduler step. -/
theorem PoolInv_step {n : Nat} {p q : Pool} {i : Nat}
    (hI : PoolInv n p) (h : workerStep p i = some q) : PoolInv n q := by
  obtain ⟨hlen, ⟨l, hq, hl, hact⟩, hws⟩ := hI
  obtain ⟨w, hw, ha, hcase | hcase⟩ := workerStep_shape h
  · obtain ⟨rest, hqq, hqeq⟩ := hcase
    have hl0 : l = [] := by
      cases l with
      | nil => rfl
      | cons x xs =>
        rw [hq] at hqq
        simp only [List.cons_append, List.cons.injEq] at hqq
        exact absurd hqq.1 (hl x (by simp))
    have hrest : rest = [] := by
      rw [hl0] at hq
      rw [hq] at hqq
      simp only [List.nil_append, List.cons.injEq] at hqq
      exact hqq.2.symm
    have hwmem : w ∈ p.workers := List.get?_mem hw
    have hobs : w.obs = 0 := by
      rcases hws w hwmem with ⟨_, h0⟩ | ⟨hf, _⟩
      · exact h0
      · rw [ha] at hf; exact absurd hf (by simp)
    subst hqeq
    refine ⟨by simp [hlen], ⟨[], by simp [hrest], by simp, by simp⟩, ?_⟩
    intro w2 hw2
    rcases List.mem_or_eq_of_mem_set hw2 with hmem | heq
    · exact hws w2 hmem
    · right
      rw [heq, hobs]
      exact ⟨rfl, rfl⟩
  · obtain ⟨u, rest, hqq, hqeq⟩ := hcase
    cases l with
    | nil =>
      rw [hq] at hqq
      simp at hqq
    | cons x xs =>
      rw [hq] at hqq
      simp only [List.cons_append, List.cons.injEq] at hqq
      subst hqeq
      refine ⟨hlen, ⟨xs, hqq.2.symm, ?_, ?_⟩, hws⟩
      · intro y hy; exact hl y (by simp [hy])
      · intro _ w2 hw2; exact hact (by simp) w2 hw2

/-- Setting an active worker inactive decreases the active count by one. -/
theorem countActive_set_false (ws : List WState) :
    ∀ (i : Nat) (w : WState) (m : Nat), ws.get? i = some w → w.active = true →
      countActive (ws.set i ⟨false, m⟩) + 1 = countActive ws := by
  induction ws with
  | nil => intro i w m h _; simp at h
  | cons x xs ih =>
    intro i w m h ha
    cases i with
    | zero =>
      simp only [List.get?] at h
      have hx : x = w := Option.some.inj h
      subst hx
      simp [countActive, List.countP_cons, ha]
    | succ j =>
      simp only [List.get?] at h
      have hrec := ih j w m h ha
      simp only [List.set, countActive, List.countP_cons] at hrec ⊢
      omega

/-- Every scheduler step decreases the measure by exactly one. -/
theorem measureP_step {n : Nat} {p q : Pool} {i : Nat}
    (hI : PoolInv n p) (h : workerStep p i = some q) : measureP q + 1 = measureP p := by
  obtain ⟨hlen, ⟨l, hq, hl, hact⟩, hws⟩ := hI
  obtain ⟨w, hw, ha, hcase | hcase⟩ := workerStep_shape h
  · obtain ⟨rest, hqq, hqeq⟩ := hcase
    subst hqeq
    have hca := countActive_set_false p.workers i w (w.obs + 1) hw ha
    have hcq : countQ (rest ++ [none]) = countQ rest := by
      simp [countQ, List.countP_append]
    have hcq2 : countQ p.queue = countQ rest := by
      rw [hqq]; simp [countQ, List.countP_cons]
    unfold measureP
    simp only
    omega
  · obtain ⟨u, rest, hqq, hqeq⟩ := hcase
    subst hqeq
    have hcq : countQ p.queue = countQ rest + 1 := by
      rw [hqq]; simp [countQ, List.countP_cons]
    unfold measureP
    simp only
    omega

/-- The invariant holds along any successful schedule. -/
theorem runSched_inv {n : Nat} : ∀ (sched : List Nat) (p q : Pool),
    PoolInv n p → runSched p sched = some q → PoolInv n q := by
  intro sched
  induction sched with
  | nil =>
    intro p q hI h
    simp only [runSched] at h
    obtain rfl := Option.some.inj h
    exact hI
  | cons i s ih =>
    intro p q hI h
    simp only [runSched] at h
    cases hs : workerStep p i with
    | none => rw [hs] at h; exact absurd h (by simp)
    | some r => rw [hs] at h; exact ih r q (PoolInv_step hI hs) h

/-- A successful schedule of length `k` drops the measure by exactly `k`. -/
theorem runSched_measure {n : Nat} : ∀ (sched : List Nat) (p q : Pool),
    PoolInv n p → runSched p sched = some q →
    measureP q + sched.length = measureP p := by
  intro sched
  induction sched with
  | nil =>
    intro p q _ h
    simp only [runSched] at h
    obtain rfl := Option.some.inj h
    simp
  | cons i s ih =>
    intro p q hI h
    simp only [runSched] at h
    cases hs : workerStep p i with
    | none => rw [hs] at h; exact absurd h (by simp)
    | some r =>
      rw [hs] at h
      have h1 := measureP_step hI hs
      have h2 := ih r q (PoolInv_step hI hs) h
      simp only [List.length_cons]
      omega

/-- All worker observation counts being one sums to the pool size. -/
theorem sum_obs_ones (ws : List WState) (h : ∀ w ∈ ws, w.obs = 1) :
    (ws.map WState.obs).sum = ws.length := by
  induction ws with
  | nil => simp
  | cons x xs ih =>
    simp only [List.map_cons, List.sum_cons, List.length_cons]
    rw [h x (by simp), ih (fun w hw => h w (by simp [hw]))]
    omega

/-- In a terminal pool state satisfying the invariant (with at least one
worker) every worker has exited having observed the sentinel exactly once,
the observation total equals the pool size, and only the sentinel remains in
the queue. -/
theorem terminal_shutdown {n : Nat} {p : Pool} (hn : 0 < n) (hI : PoolInv n p)
    (ht : terminalPool p = true) :
    (∀ w ∈ p.workers, w.active = false ∧ w.obs = 1) ∧ obsSum p = n ∧ p.queue = [none] := by
  obtain ⟨hlen, ⟨l, hq, hl, hact⟩, hws⟩ := hI
  have hinact : ∀ w ∈ p.workers, w.active = false := by
    intro w hm
    cases hwa : w.active with
    | false => rfl
    | true =>
      exfalso
      obtain ⟨i, hi⟩ := List.get?_of_mem hm
      have hstep : workerStep p i ≠ none := by
        unfold workerStep
        rw [hi, hq]
        cases l with
        | nil => simp [hwa]
        | cons x xs => cases x <;> simp [hwa]
      obtain ⟨hlt, -⟩ := List.get?_eq_some.mp hi
      have := (List.all_eq_true.mp ht) i (by simpa using List.mem_range.mpr hlt)
      simp only [Option.isNone_iff_eq_none] at this
      exact hstep (by simpa using this)
  have hall : ∀ w ∈ p.workers, w.active = false ∧ w.obs = 1 := by
    intro w hm
    refine ⟨hinact w hm, ?_⟩
    rcases hws w hm with ⟨ht2, _⟩ | ⟨_, h1⟩
    · rw [hinact w hm] at ht2; exact absurd ht2 (by simp)
    · exact h1
  have hne : p.workers ≠ [] := by
    intro hemp
    rw [hemp] at hlen
    simp at hlen
    omega
  have hl0 : l = [] := by
    by_contra hcon
    have hactive := hact hcon
    cases hworkers : p.workers with
    | nil => exact hne hworkers
    | cons w ws =>
      have hm : w ∈ p.workers := by rw [hworkers]; simp
      have h1 := hactive w hm
      have h2 := hinact w hm
      rw [h1] at h2
      exact absurd h2 (by simp)
  refine ⟨hall, ?_, by rw [hq, hl0]; simp⟩
  unfold obsSum
  rw [sum_obs_ones p.workers (fun w hw => (hall w hw).2)]
  exact hlen

/-- The initial pool state satisfies the invariant. -/
theorem startPool_inv (puts : List String) (n : Nat) :
    PoolInv n (startPool (puts.map some ++ [none]) n) := by
  refine ⟨by simp [startPool], ⟨puts.map some, rfl, by simp, ?_⟩, ?_⟩
  · intro _ w hw
    have := List.eq_of_mem_replicate hw
    rw [this]
  · intro w hw
    have := List.eq_of_mem_replicate hw
    rw [this]
    left
    exact ⟨rfl, rfl⟩

/-- The active count of the fresh pool is the worker count. -/
theorem countActive_replicate (n : Nat) :
    countActive (List.replicate n ⟨true, 0⟩) = n := by
  induction n with
  | zero => rfl
  | succ m ih => simp [countActive, List.replicate, List.countP_cons] at ih ⊢; omega

/-- C1: for every crawl session (any site oracle, any page budget) and every
pool of `n ≥ 1` workers consuming the producer's queue: the producer's last
queue put is the shutdown sentinel; every scheduler interleaving of worker
steps halts within `|queue| + n` steps (no worker blocks forever); and in any
state where no worker can step any more, every worker has exited having
observed the sentinel exactly once, the total number of sentinel observations
equals the number of workers, and only the re-enqueued sentinel remains in
the queue. -/
theorem shutdown_protocol (uj : String → String → String)
    (fetch : Nat → Except Unit Page) (url : String) (maxPages n : Nat) (hn : 0 < n) :
    ((Crawler.crawl_images uj fetch url maxPages).1.getLast? = some none)
    ∧ (∀ sched q,
        runSched (startPool (Crawler.crawl_images uj fetch url maxPages).1 n) sched = some q →
        sched.length ≤ (Crawler.crawl_images uj fetch url maxPages).1.length + n)
    ∧ (∀ sched q,
        runSched (startPool (Crawler.crawl_images uj fetch url maxPages).1 n) sched = some q →
        terminalPool q = true →
        (∀ w ∈ q.workers, w.active = false ∧ w.obs = 1) ∧ obsSum q = n ∧ q.queue = [none]) := by
  have he : (Crawler.crawl_images uj fetch url maxPages).1 =
      (crawlLoop uj fetch url maxPages 1 maxPages).puts.map some ++ [none] := rfl
  have hI0 := startPool_inv (crawlLoop uj fetch url maxPages 1 maxPages).puts n
  refine ⟨by rw [he]; simp, ?_, ?_⟩
  · intro sched q hrun
    rw [he] at hrun
    have hm := runSched_measure sched _ q hI0 hrun
    have hb : measureP (startPool ((crawlLoop uj fetch url maxPages 1 maxPages).puts.map some
        ++ [none]) n) ≤ ((crawlLoop uj fetch url maxPages 1 maxPages).puts.map some
        ++ [none]).length + n := by
      unfold measureP startPool
      simp only
      have h1 : countQ ((crawlLoop uj fetch url maxPages 1 maxPages).puts.map some ++ [none]) ≤
          ((crawlLoop uj fetch url maxPages 1 maxPages).puts.map some ++ [none]).length :=
        List.countP_le_length _
      have h2 := countActive_replicate n
      omega
    rw [he]
    omega
  · intro sched q hrun hterm
    rw [he] at hrun
    exact terminal_shutdown hn (runSched_inv sched _ q hI0 hrun) hterm

/-- C1 witness: the theorem applied to a concrete failing site, budget 0 and
one worker. -/
theorem shutdown_protocol_witness :
    ((Crawler.crawl_images uj0 (fun _ => .error ()) "u" 0).1.getLast? = some none)
    ∧ (∀ sched q,
        runSched (startPool (Crawler.crawl_images uj0 (fun _ => .error ()) "u" 0).1 1) sched = some q →
        sched.length ≤ (Crawler.crawl_images uj0 (fun _ => .error ()) "u" 0).1.length + 1)
    ∧ (∀ sched q,
        runSched (startPool (Crawler.crawl_images uj0 (fun _ => .error ()) "u" 0).1 1) sched = some q →
        terminalPool q = true →
        (∀ w ∈ q.workers, w.active = false ∧ w.obs = 1) ∧ obsSum q = 1 ∧ q.queue = [none]) :=
  shutdown_protocol uj0 (fun _ => .error ()) "u" 0 1 (by decide)
